import Mathlib

set_option maxHeartbeats 1000000

/-!
Shallow embedding of the validation/profiling engine of
`src/etl/advanced_validation.py` and of the disclosure-speed transform of
`src/etl/data_transformation.py`.

Modelling conventions:
* A pandas DataFrame is a list of named, typed columns of cells
  (`DataFrame`); `NaN`/`NaT`/`None` cells are the single null `Value.vNull`.
* Timestamps are calendar-day numbers (`Int`), so subtracting two of them
  gives the number of calendar days between them, matching
  `(ts2 - ts1).dt.days` on date-valued timestamps.
* Python floats are modelled as rationals `ℚ`; the claims under study only
  compare, add, subtract, multiply and divide these values, operations that
  are exact on the values appearing in the program.
* Error strings carry structured payloads: each `errors.append(f"...")` in
  the source becomes a `VError` constructor holding exactly the data
  interpolated into the f-string.
* Exceptions are `Except String`; the `try/except` of
  `validate_cross_table_constraints` becomes a `match` on the body's result.
-/

/-- Column dtypes used by the four pandera schemas: int, float, str, bool,
pd.Timestamp. -/
inductive DType
  | dInt
  | dFloat
  | dStr
  | dBool
  | dTs
deriving DecidableEq

/-- A cell value of a DataFrame. `vNull` stands for NaN/NaT/None. -/
inductive Value
  | vInt (n : Int)
  | vFloat (q : ℚ)
  | vStr (s : String)
  | vBool (b : Bool)
  | vTs (t : Int)
  | vNull
deriving DecidableEq

/-- Whether a cell is null (pandas `isna`). -/
def Value.isNull : Value → Bool
  | .vNull => true
  | _ => false

/-- Strict `<` between cells, as pandas evaluates it on datetime columns:
true only for two non-null timestamps in order; any comparison involving
NaT (here `vNull`) is false. -/
def vlt : Value → Value → Bool
  | .vTs a, .vTs b => decide (a < b)
  | _, _ => false

/-- A DataFrame column: its name, dtype and cells. -/
structure Col where
  name : String
  dtype : DType
  cells : List Value
deriving DecidableEq

/-- A DataFrame: a list of columns (all of equal length in well-formed
frames). -/
structure DataFrame where
  cols : List Col
deriving DecidableEq

/-- Column lookup, `df[name]` when it succeeds. -/
def DataFrame.getCol? (df : DataFrame) (name : String) : Option Col :=
  df.cols.find? (fun c => c.name == name)

/-- Number of rows, `len(df)`. -/
def nRows (df : DataFrame) : Nat :=
  match df.cols with
  | [] => 0
  | c :: _ => c.cells.length

/-- Pandas `df.empty`: true when the frame has no columns or no rows. -/
def DataFrame.isEmpty (df : DataFrame) : Bool :=
  df.cols.isEmpty || nRows df == 0

/-- Lift a string predicate to a cell predicate (element-wise pandera
checks on a `str` column; a non-string cell fails the check). -/
def onStr (p : String → Bool) : Value → Bool
  | .vStr s => p s
  | _ => false

/-- Lift an integer predicate to a cell predicate. -/
def onInt (p : Int → Bool) : Value → Bool
  | .vInt n => p n
  | _ => false

/-- Lift a rational predicate to a cell predicate (float columns). -/
def onFloat (p : ℚ → Bool) : Value → Bool
  | .vFloat q => p q
  | _ => false

/-- A pandera `Check`: a description plus an element-wise predicate. -/
abbrev VCheck := String × (Value → Bool)

/-- A pandera `Column` declaration: dtype, nullability, element checks. -/
structure ColSpec where
  name : String
  dtype : DType
  nullable : Bool
  checks : List VCheck

/-- Semantics of the regex `^[A-Z]{1,10}$` used by the ticker check:
one to ten characters, all uppercase ASCII letters. -/
def tickerMatches (s : String) : Bool :=
  decide (1 ≤ s.length) && decide (s.length ≤ 10) &&
    s.toList.all (fun ch => decide ('A' ≤ ch) && decide (ch ≤ 'Z'))

/-- Semantics of `~x.str.contains(r'[<>]')`: no angle bracket occurs. -/
def noAngleBrackets (s : String) : Bool :=
  !(s.toList.any (fun ch => ch == '<' || ch == '>'))

/-- `companies_schema` of advanced_validation.py. -/
def companies_schema : List ColSpec :=
  [ { name := "ticker", dtype := .dStr, nullable := false,
      checks := [("str_matches uppercase 1 to 10", onStr tickerMatches),
                 ("str len at most 10", onStr (fun s => decide (s.length ≤ 10)))] },
    { name := "company_name", dtype := .dStr, nullable := false,
      checks := [("str_length 1 to 255",
                    onStr (fun s => decide (1 ≤ s.length) && decide (s.length ≤ 255))),
                 ("no html tags", onStr noAngleBrackets)] },
    { name := "sector", dtype := .dStr, nullable := true,
      checks := [("str_length at most 100", onStr (fun s => decide (s.length ≤ 100)))] },
    { name := "governance_score", dtype := .dFloat, nullable := true,
      checks := [("between 0 and 10",
                    onFloat (fun q => decide (0 ≤ q) && decide (q ≤ 10)))] } ]

/-- `stock_prices_schema` of advanced_validation.py. -/
def stock_prices_schema : List ColSpec :=
  [ { name := "company_id", dtype := .dInt, nullable := false,
      checks := [("greater_than 0", onInt (fun n => decide (0 < n)))] },
    { name := "date", dtype := .dTs, nullable := false, checks := [] },
    { name := "closing_price", dtype := .dFloat, nullable := false,
      checks := [("greater_than 0", onFloat (fun q => decide (0 < q))),
                 ("less_than 10000", onFloat (fun q => decide (q < 10000)))] },
    { name := "trading_volume", dtype := .dInt, nullable := false,
      checks := [("greater_than_or_equal_to 0", onInt (fun n => decide (0 ≤ n))),
                 ("less_than 1e12", onInt (fun n => decide (n < 1000000000000)))] },
    { name := "returns", dtype := .dFloat, nullable := true,
      checks := [("between -1 and 1",
                    onFloat (fun q => decide (-1 ≤ q) && decide (q ≤ 1)))] } ]

/-- `sec_filings_schema` of advanced_validation.py. -/
def sec_filings_schema : List ColSpec :=
  [ { name := "company_id", dtype := .dInt, nullable := false,
      checks := [("greater_than 0", onInt (fun n => decide (0 < n)))] },
    { name := "filing_date", dtype := .dTs, nullable := false, checks := [] },
    { name := "filing_type", dtype := .dStr, nullable := false,
      checks := [("isin filing types",
                    onStr (fun s => ["8-K", "10-K", "10-Q", "20-F"].contains s))] },
    { name := "cybersecurity_mention", dtype := .dBool, nullable := false, checks := [] },
    { name := "disclosure_speed", dtype := .dStr, nullable := true,
      checks := [("isin speeds",
                    onStr (fun s => ["Immediate", "Delayed", "Unknown"].contains s))] } ]

/-- `cybersecurity_incidents_schema` of advanced_validation.py. -/
def cybersecurity_incidents_schema : List ColSpec :=
  [ { name := "company_id", dtype := .dInt, nullable := false,
      checks := [("greater_than 0", onInt (fun n => decide (0 < n)))] },
    { name := "breach_date", dtype := .dTs, nullable := false, checks := [] },
    { name := "disclosure_date", dtype := .dTs, nullable := true, checks := [] },
    { name := "incident_type", dtype := .dStr, nullable := true, checks := [] },
    { name := "records_affected", dtype := .dInt, nullable := true,
      checks := [("greater_than_or_equal_to 0", onInt (fun n => decide (0 ≤ n)))] } ]

/-- Structured validation errors; each corresponds to one error string the
source appends (the constructor payload is the data the f-string
interpolates). -/
inductive VError
  | missingColumn (col : String)
  | dtypeMismatch (col : String)
  | nullViolation (col : String)
  | checkFailed (col : String) (check : String)
  | refIntegrity (ids : List Value)
  | temporal (count : Nat)
  | exception (msg : String)
deriving DecidableEq

/-- An element-wise check passes on a column when every non-null cell
satisfies its predicate (pandera's default `ignore_na`). -/
def checkPasses (c : Col) (chk : VCheck) : Bool :=
  c.cells.all (fun v => v.isNull || chk.2 v)

/-- Errors pandera's lazy validation collects for one declared column:
a missing-column error, or a dtype mismatch, nulls in a non-nullable
column, and one error per failing check (not one per failing row). -/
def specErrors (spec : ColSpec) (df : DataFrame) : List VError :=
  match df.getCol? spec.name with
  | none => [VError.missingColumn spec.name]
  | some c =>
      (if c.dtype == spec.dtype then [] else [VError.dtypeMismatch spec.name])
      ++ (if !spec.nullable && c.cells.any Value.isNull
            then [VError.nullViolation spec.name] else [])
      ++ spec.checks.filterMap
          (fun chk => if checkPasses c chk then none
                      else some (VError.checkFailed spec.name chk.1))

/-- All errors `schema.validate(df, lazy=True)` collects. -/
def schemaErrors (schema : List ColSpec) (df : DataFrame) : List VError :=
  (schema.map (fun spec => specErrors spec df)).flatten

/-- The `self.schemas` registry of `DataValidator.__init__`. -/
def schemas : List (String × List ColSpec) :=
  [("companies", companies_schema),
   ("stock_prices", stock_prices_schema),
   ("sec_filings", sec_filings_schema),
   ("cybersecurity_incidents", cybersecurity_incidents_schema)]

/-- `DataValidator.validate_dataset`: unknown names pass trivially; a
successful `schema.validate` returns `(True, [])`; a `SchemaErrors`
exception is caught and converted into `(False, errors)`. -/
def validate_dataset (df : DataFrame) (dataset_name : String) : Bool × List VError :=
  match schemas.lookup dataset_name with
  | none => (true, [])
  | some schema =>
      let errors := schemaErrors schema df
      if errors.isEmpty then (true, []) else (false, errors)

/-- The named collection of datasets handed to the validator; a key mapped
to `none` models a key whose value is Python's `None`. -/
abbrev Datasets := List (String × Option DataFrame)

/-- Python `name in datasets` (key presence, whatever the value). -/
def containsKey (datasets : Datasets) (k : String) : Bool :=
  (datasets.lookup k).isSome

/-- `datasets[name][col]`: subscripting `None` raises a TypeError and a
missing column raises a KeyError; both become `Except.error`. -/
def subscriptCol (odf : Option DataFrame) (col : String) : Except String (List Value) :=
  match odf with
  | none => Except.error "TypeError: NoneType object is not subscriptable"
  | some df =>
      match df.getCol? col with
      | none => Except.error ("KeyError: " ++ col)
      | some c => Except.ok c.cells

/-- Python `set(a) - set(b)` as a duplicate-free list of the values of `a`
not occurring in `b` (iteration order of a Python set is unspecified; only
membership in the result matters to the program's output). -/
def pySetDiff (a b : List Value) : List Value :=
  a.dedup.filter (fun v => !(b.contains v))

/-- Count of incident rows whose `disclosure_date` is non-null and
strictly earlier than their `breach_date` — the rows the boolean mask of
lines 126-129 selects. -/
def violationCount (disc breach : List Value) : Nat :=
  ((disc.zip breach).filter (fun p => !p.1.isNull && vlt p.1 p.2)).length

/-- The referential-integrity step of the `try` block (lines 109-119):
run only when both keys are present; any exception of the subscripting
propagates. -/
def refStep (datasets : Datasets) : Except String (List VError) :=
  if containsKey datasets "companies" && containsKey datasets "stock_prices" then
    match subscriptCol ((datasets.lookup "companies").getD none) "company_id" with
    | Except.error e => Except.error e
    | Except.ok valid_company_ids =>
        match subscriptCol ((datasets.lookup "stock_prices").getD none) "company_id" with
        | Except.error e => Except.error e
        | Except.ok stock_company_ids =>
            let invalid_ids := pySetDiff stock_company_ids valid_company_ids
            Except.ok (if invalid_ids.isEmpty then [] else [VError.refIntegrity invalid_ids])
  else Except.ok []

/-- The temporal-consistency step of the `try` block (lines 121-132). -/
def tempStep (datasets : Datasets) : Except String (List VError) :=
  if containsKey datasets "cybersecurity_incidents" then
    match subscriptCol ((datasets.lookup "cybersecurity_incidents").getD none)
        "disclosure_date" with
    | Except.error e => Except.error e
    | Except.ok disc =>
        match subscriptCol ((datasets.lookup "cybersecurity_incidents").getD none)
            "breach_date" with
        | Except.error e => Except.error e
        | Except.ok breach =>
            let n := violationCount disc breach
            Except.ok (if 0 < n then [VError.temporal n] else [])
  else Except.ok []

/-- Body of the `try` block of `validate_cross_table_constraints`:
referential-integrity check, then temporal check, accumulating errors;
the first exception aborts the body. -/
def crossBody (datasets : Datasets) : Except String (List VError) :=
  match refStep datasets with
  | Except.error e => Except.error e
  | Except.ok refErrs =>
      match tempStep datasets with
      | Except.error e => Except.error e
      | Except.ok tempErrs => Except.ok (refErrs ++ tempErrs)

/-- `DataValidator.validate_cross_table_constraints`: returns
`(len(errors) == 0, errors)`, with the catch-all `except` converting any
exception into `(False, [str(e)])`. -/
def validate_cross_table_constraints (datasets : Datasets) : Bool × List VError :=
  match crossBody datasets with
  | Except.ok errors => (errors.isEmpty, errors)
  | Except.error e => (false, [VError.exception e])

/-- Whether a dtype is selected by `select_dtypes(include=['number'])`. -/
def isNumericD : DType → Bool
  | .dInt => true
  | .dFloat => true
  | _ => false

/-- Numeric view of a cell: ints and floats yield their value, everything
else (in particular NaN) is skipped, as pandas reductions skip NaN. -/
def toRat? : Value → Option ℚ
  | .vInt n => some ((n : ℚ))
  | .vFloat q => some q
  | _ => none

/-- The non-null numeric values of a column. -/
def nonNullRats (cells : List Value) : List ℚ :=
  cells.filterMap toRat?

/-- Pandas `Series.quantile(0.95)` with its default linear interpolation:
sort the non-null values ascending, take position `0.95 * (n - 1)` and
interpolate between the neighbouring order statistics; NaN (here `none`)
on an empty series. -/
def quantile95 (cells : List Value) : Option ℚ :=
  let xs := List.insertionSort (fun a b => a ≤ b) (nonNullRats cells)
  if xs.length = 0 then none
  else
    let pos : ℚ := (95 : ℚ) / 100 * ((xs.length : ℚ) - 1)
    let lo := (Int.floor pos).toNat
    let hi := (Int.ceil pos).toNat
    some (xs.getD lo 0 + (xs.getD hi 0 - xs.getD lo 0) * (pos - (lo : ℚ)))

/-- Pandas `value > q` on a cell against an optional quantile: false when
the cell is non-numeric/NaN or the quantile is NaN. -/
def vGtQ (v : Value) (q : Option ℚ) : Bool :=
  match toRat? v, q with
  | some x, some y => decide (y < x)
  | _, _ => false

/-- Per-numeric-column statistics of `generate_data_profile`. The standard
deviation of the source needs a real square root and no claim concerns it,
so it is not carried in the model. -/
structure ColStats where
  mean : Option ℚ
  min : Option ℚ
  max : Option ℚ
  outliers : Nat
deriving DecidableEq

/-- The `{col}_stats` entry: mean/min/max over non-null values and
`len(df[df[col] > df[col].quantile(0.95)])` as the outlier count. -/
def colStats (cells : List Value) : ColStats :=
  let xs := nonNullRats cells
  { mean := if xs.isEmpty then none else some (xs.sum / (xs.length : ℚ)),
    min := xs.min?,
    max := xs.max?,
    outliers := (cells.filter (fun v => vGtQ v (quantile95 cells))).length }

/-- Row `i` of a DataFrame (for `df.duplicated()`). -/
def dfRows (df : DataFrame) : List (List Value) :=
  (List.range (nRows df)).map (fun i => df.cols.map (fun c => c.cells.getD i Value.vNull))

/-- `df.duplicated().sum()`: rows equal to some earlier row. -/
def countDuplicates : List (List Value) → List (List Value) → Nat
  | _, [] => 0
  | seen, r :: rest =>
      (if seen.contains r then 1 else 0) + countDuplicates (r :: seen) rest

/-- The data profile of one dataset. The `memory_usage_mb` entry of the
source depends on the process memory layout and is not modelled; no claim
concerns it. -/
structure Profile where
  dataset : String
  record_count : Nat
  column_count : Nat
  null_counts : List (String × Nat)
  duplicate_rows : Nat
  stats : List (String × ColStats)
deriving DecidableEq

/-- `DataValidator.generate_data_profile`. -/
def generate_data_profile (df : DataFrame) (dataset_name : String) : Profile :=
  { dataset := dataset_name,
    record_count := nRows df,
    column_count := df.cols.length,
    null_counts := df.cols.map (fun c => (c.name, c.cells.countP Value.isNull)),
    duplicate_rows := countDuplicates [] (dfRows df),
    stats := (df.cols.filter (fun c => isNumericD c.dtype)).map
      (fun c => (c.name ++ "_stats", colStats c.cells)) }

/-- One entry of `validation_report['dataset_results']`. -/
structure DsResult where
  passed : Bool
  errors : List VError
  record_count : Nat
deriving DecidableEq

/-- The validation report. The `timestamp` entry is wall-clock I/O and is
not modelled; `cross_table_results` is split into its two fields. -/
structure Report where
  overall_status : String
  dataset_results : List (String × DsResult)
  cross_passed : Bool
  cross_errors : List VError
  data_profiles : List (String × Profile)

/-- One iteration of the `for name, df in datasets.items()` loop of
`run_comprehensive_validation`: skip absent/empty frames, otherwise record
the validation result and the profile and downgrade the running status on
failure. -/
def valStep (acc : List (String × DsResult) × List (String × Profile) × String)
    (p : String × Option DataFrame) :
    List (String × DsResult) × List (String × Profile) × String :=
  match p.2 with
  | none => acc
  | some df =>
      if df.isEmpty then acc
      else
        let pe := validate_dataset df p.1
        (acc.1 ++ [(p.1, ⟨pe.1, pe.2, nRows df⟩)],
         acc.2.1 ++ [(p.1, generate_data_profile df p.1)],
         if pe.1 then acc.2.2 else "FAILED")

/-- `run_comprehensive_validation`. -/
def run_comprehensive_validation (datasets : Datasets) : Report :=
  let acc := datasets.foldl valStep ([], [], "PASSED")
  let cross := validate_cross_table_constraints datasets
  { overall_status := if cross.1 then acc.2.2 else "FAILED",
    dataset_results := acc.1,
    cross_passed := cross.1,
    cross_errors := cross.2,
    data_profiles := acc.2.1 }

/-- The fields of a cybersecurity-incidents row that
`classify_disclosure_speed` reads; dates are calendar-day numbers, `none`
is NaT. -/
structure IncidentRow where
  company_id : Int
  breach_date : Option Int
deriving DecidableEq

/-- The fields of a SEC-filings row that `classify_disclosure_speed`
reads. -/
structure FilingRow where
  company_id : Int
  filing_date : Option Int
deriving DecidableEq

/-- A row of the merged frame the transform returns. -/
structure MergedRow where
  company_id : Int
  breach_date : Option Int
  filing_date : Option Int
  days_to_disclosure : Option Int
  disclosure_speed : String
deriving DecidableEq

/-- `incidents_df.merge(filings_df, on='company_id', how='left')`: each
incident row is paired with every filing of the same company, or with no
filing (NaN-filled right side) when the company has none. -/
def leftMergeRows (incidents : List IncidentRow) (filings : List FilingRow) :
    List (IncidentRow × Option FilingRow) :=
  incidents.flatMap (fun i =>
    match filings.filter (fun f => f.company_id == i.company_id) with
    | [] => [(i, none)]
    | ms => ms.map (fun f => (i, some f)))

/-- `(filing_date - breach_date).dt.days`: NaN when either side is NaT. -/
def optSub (a b : Option Int) : Option Int :=
  match a, b with
  | some x, some y => some (x - y)
  | _, _ => none

/-- Numpy `days <= 4` on a possibly-NaN day count: NaN compares false. -/
def optLe4 : Option Int → Bool
  | some d => decide (d ≤ 4)
  | none => false

/-- `classify_disclosure_speed` of data_transformation.py: left-merge on
`company_id`, compute `days_to_disclosure`, then
`np.where(days <= 4, 'Immediate', 'Delayed')`. -/
def classify_disclosure_speed (incidents_df : List IncidentRow)
    (filings_df : List FilingRow) : List MergedRow :=
  (leftMergeRows incidents_df filings_df).map (fun p =>
    let fd := match p.2 with
              | some f => f.filing_date
              | none => none
    let days := optSub fd p.1.breach_date
    { company_id := p.1.company_id,
      breach_date := p.1.breach_date,
      filing_date := fd,
      days_to_disclosure := days,
      disclosure_speed := if optLe4 days then "Immediate" else "Delayed" })

/-- Statement of the claim hypothesis for per-dataset validation: the
declared column is present with the declared dtype, nulls occur only if
declared nullable, and every non-null cell satisfies every declared
check. -/
def satisfiesSpec (spec : ColSpec) (df : DataFrame) : Bool :=
  match df.getCol? spec.name with
  | none => false
  | some c =>
      c.dtype == spec.dtype
      && (spec.nullable || !(c.cells.any Value.isNull))
      && spec.checks.all (fun chk => checkPasses c chk)

/-- Every row of the frame satisfies all declared per-field checks of the
schema. -/
def satisfiesSchema (schema : List ColSpec) (df : DataFrame) : Bool :=
  schema.all (fun spec => satisfiesSpec spec df)

/-- Statement of the claim for the outlier heuristic: the number of
(non-null numeric) values of the column strictly greater than the
column's 95th percentile. -/
def countAbove95 (cells : List Value) : Nat :=
  match quantile95 cells with
  | some q => ((nonNullRats cells).filter (fun x => decide (q < x))).length
  | none => 0

/-- The per-dataset result entries the report loop accumulates. -/
def dsEntries : Datasets → List (String × DsResult)
  | [] => []
  | (_, none) :: l => dsEntries l
  | (name, some df) :: l =>
      if df.isEmpty then dsEntries l
      else (name, ⟨(validate_dataset df name).1, (validate_dataset df name).2,
        nRows df⟩) :: dsEntries l

/-- The profile entries the report loop accumulates. -/
def profEntries : Datasets → List (String × Profile)
  | [] => []
  | (_, none) :: l => profEntries l
  | (name, some df) :: l =>
      if df.isEmpty then profEntries l
      else (name, generate_data_profile df name) :: profEntries l

/-- Whether some present, non-empty dataset fails its schema validation. -/
def anyFailedB : Datasets → Bool
  | [] => false
  | (_, none) :: l => anyFailedB l
  | (name, some df) :: l =>
      (!df.isEmpty && !(validate_dataset df name).1) || anyFailedB l

/-- A one-row companies frame on which every declared check passes. -/
def dfCompaniesOK : DataFrame :=
  ⟨[⟨"ticker", .dStr, [Value.vStr "AAPL"]⟩,
    ⟨"company_name", .dStr, [Value.vStr "Apple Inc"]⟩,
    ⟨"sector", .dStr, [Value.vNull]⟩,
    ⟨"governance_score", .dFloat, [Value.vFloat 8]⟩]⟩

/-- A companies frame carrying a `company_id` column with the single
id 1. -/
def dfRefCompanies : DataFrame :=
  ⟨[⟨"company_id", .dInt, [Value.vInt 1]⟩]⟩

/-- A stock-prices frame whose `company_id` column holds ids 1 and 2;
id 2 is orphaned with respect to `dfRefCompanies`. -/
def dfRefStock : DataFrame :=
  ⟨[⟨"company_id", .dInt, [Value.vInt 1, Value.vInt 2]⟩]⟩

/-- An incidents frame with one row disclosed five days before its
breach. -/
def dfIncidentsLate : DataFrame :=
  ⟨[⟨"disclosure_date", .dTs, [Value.vTs 5]⟩,
    ⟨"breach_date", .dTs, [Value.vTs 10]⟩]⟩

/-- A one-column numeric frame: values 1, 2, 100. -/
def dfPrices : DataFrame :=
  ⟨[⟨"price", .dInt, [Value.vInt 1, Value.vInt 2, Value.vInt 100]⟩]⟩

/-- One incident of company 1, breached on day 0. -/
def incDemo : List IncidentRow := [⟨1, some 0⟩]

/-- One filing of company 1, filed on day 3. -/
def filDemo : List FilingRow := [⟨1, some 3⟩]

/-- The merged row `classify_disclosure_speed incDemo filDemo` produces. -/
def mrowDemo : MergedRow := ⟨1, some 0, some 3, some 3, "Immediate"⟩

/-- One incident of company 7 with no matching filing. -/
def incNoMatch : List IncidentRow := [⟨7, some 0⟩]

/-! Helper lemmas. -/

theorem specErrors_eq_nil (spec : ColSpec) (df : DataFrame)
    (h : satisfiesSpec spec df = true) : specErrors spec df = [] := by
  unfold satisfiesSpec at h
  cases hc : df.getCol? spec.name with
  | none => rw [hc] at h; cases h
  | some c =>
      rw [hc] at h
      simp only [Bool.and_eq_true, Bool.or_eq_true, Bool.not_eq_true',
        List.all_eq_true] at h
      obtain ⟨⟨hd, hn⟩, hchk⟩ := h
      have hnull : (!spec.nullable && c.cells.any Value.isNull) = false := by
        cases hn with
        | inl h1 => rw [h1]; rfl
        | inr h2 => rw [h2]; simp
      simp only [specErrors, hc, hd, hnull, Bool.false_eq_true, if_false, if_true,
        List.nil_append, List.append_nil, List.filterMap_eq_nil_iff]
      intro chk hcm
      rw [hchk chk hcm]
      rfl

theorem schemaErrors_eq_nil (schema : List ColSpec) (df : DataFrame)
    (h : satisfiesSchema schema df = true) : schemaErrors schema df = [] := by
  unfold satisfiesSchema at h
  rw [List.all_eq_true] at h
  unfold schemaErrors
  rw [List.flatten_eq_nil_iff]
  intro l hl
  rw [List.mem_map] at hl
  obtain ⟨spec, hs, rfl⟩ := hl
  exact specErrors_eq_nil spec df (h spec hs)

/-! Claim theorems. -/

/-- C2: for every dataset with a registered schema, if every row satisfies
all declared per-field checks (type, nullability, and predicate checks),
then `validate_dataset` returns `passed = true` and an empty error
list. -/
theorem c2_valid_rows_pass (name : String) (schema : List ColSpec) (df : DataFrame)
    (hreg : schemas.lookup name = some schema)
    (hsat : satisfiesSchema schema df = true) :
    validate_dataset df name = (true, []) := by
  simp only [validate_dataset, hreg, schemaErrors_eq_nil schema df hsat]
  rfl

/-- Witness for C2: a concrete valid companies frame passes. -/
theorem c2_valid_rows_pass_witness :
    schemas.lookup "companies" = some companies_schema ∧
    satisfiesSchema companies_schema dfCompaniesOK = true ∧
    validate_dataset dfCompaniesOK "companies" = (true, []) :=
  ⟨rfl, by decide,
   c2_valid_rows_pass "companies" companies_schema dfCompaniesOK rfl (by decide)⟩

/-- C5: any exception raised inside the cross-table checks is caught and
converted into the result `(passed = false, errors = one single error
string)`; it never propagates to the caller. -/
theorem c5_cross_table_catches (datasets : Datasets) (e : String)
    (h : crossBody datasets = Except.error e) :
    validate_cross_table_constraints datasets = (false, [VError.exception e]) := by
  unfold validate_cross_table_constraints
  rw [h]

/-- Witness for C5: subscripting the malformed companies frame (it has no
`company_id` column) raises a KeyError, which the catch-all converts into
a single-error failed result. -/
theorem c5_cross_table_catches_witness :
    validate_cross_table_constraints
        [("companies", some dfCompaniesOK), ("stock_prices", some dfRefStock)] =
      (false, [VError.exception "KeyError: company_id"]) :=
  c5_cross_table_catches
    [("companies", some dfCompaniesOK), ("stock_prices", some dfRefStock)]
    "KeyError: company_id" rfl

/-- C6: for every dataset and every name with no registered schema,
`validate_dataset` succeeds trivially with `passed = true` and no errors,
regardless of the frame's contents. -/
theorem c6_unknown_name_passes (df : DataFrame) (name : String)
    (h1 : name ≠ "companies") (h2 : name ≠ "stock_prices")
    (h3 : name ≠ "sec_filings") (h4 : name ≠ "cybersecurity_incidents") :
    validate_dataset df name = (true, []) := by
  have hl : schemas.lookup name = none := by
    unfold schemas
    simp only [List.lookup]
    rw [beq_eq_false_iff_ne.mpr h1, beq_eq_false_iff_ne.mpr h2,
      beq_eq_false_iff_ne.mpr h3, beq_eq_false_iff_ne.mpr h4]
  unfold validate_dataset
  rw [hl]

/-- Witness for C6: an unregistered dataset name passes on a nonsense
frame. -/
theorem c6_unknown_name_passes_witness :
    validate_dataset dfPrices "transactions" = (true, []) :=
  c6_unknown_name_passes dfPrices "transactions"
    (by decide) (by decide) (by decide) (by decide)

theorem mem_pySetDiff (a b : List Value) (v : Value) :
    v ∈ pySetDiff a b ↔ v ∈ a ∧ v ∉ b := by
  unfold pySetDiff
  rw [List.mem_filter, List.mem_dedup]
  constructor
  · rintro ⟨hva, hnb⟩
    refine ⟨hva, fun hvb => ?_⟩
    rw [Bool.not_eq_true', ← Bool.not_eq_true] at hnb
    exact hnb (List.elem_iff.mpr hvb)
  · rintro ⟨hva, hnb⟩
    refine ⟨hva, ?_⟩
    rw [Bool.not_eq_true', ← Bool.not_eq_true]
    intro hcont
    exact hnb (List.elem_iff.mp hcont)

theorem pySetDiff_eq_nil (a b : List Value) :
    pySetDiff a b = [] ↔ ¬∃ v ∈ a, v ∉ b := by
  rw [List.eq_nil_iff_forall_not_mem]
  constructor
  · rintro h ⟨v, hva, hnb⟩
    exact h v ((mem_pySetDiff a b v).mpr ⟨hva, hnb⟩)
  · intro h v hv
    rw [mem_pySetDiff] at hv
    exact h ⟨v, hv.1, hv.2⟩

/-- C3: with companies and stock_prices both carrying a `company_id`
column, the cross-table check fails exactly when some `company_id` value
of stock_prices does not occur among the companies ids, and in that case
the whole set of orphaned ids is collected into one single error (not one
per row) that carries exactly those ids. -/
theorem c3_referential_integrity (dfC dfS : DataFrame) (cIds sIds : List Value)
    (hc : subscriptCol (some dfC) "company_id" = Except.ok cIds)
    (hs : subscriptCol (some dfS) "company_id" = Except.ok sIds) :
    ((validate_cross_table_constraints
        [("companies", some dfC), ("stock_prices", some dfS)]).1 = false ↔
      ∃ v ∈ sIds, v ∉ cIds) ∧
    ((validate_cross_table_constraints
        [("companies", some dfC), ("stock_prices", some dfS)]).2 =
      if pySetDiff sIds cIds = [] then []
      else [VError.refIntegrity (pySetDiff sIds cIds)]) ∧
    (∀ v, v ∈ pySetDiff sIds cIds ↔ v ∈ sIds ∧ v ∉ cIds) := by
  have k1 : containsKey [("companies", some dfC), ("stock_prices", some dfS)]
      "companies" = true := rfl
  have k2 : containsKey [("companies", some dfC), ("stock_prices", some dfS)]
      "stock_prices" = true := rfl
  have k3 : containsKey [("companies", some dfC), ("stock_prices", some dfS)]
      "cybersecurity_incidents" = false := rfl
  have l1 : (List.lookup "companies"
      [("companies", some dfC), ("stock_prices", some dfS)]).getD none = some dfC := rfl
  have l2 : (List.lookup "stock_prices"
      [("companies", some dfC), ("stock_prices", some dfS)]).getD none = some dfS := rfl
  have href : refStep [("companies", some dfC), ("stock_prices", some dfS)] =
      Except.ok (if (pySetDiff sIds cIds).isEmpty then []
                 else [VError.refIntegrity (pySetDiff sIds cIds)]) := by
    simp only [refStep, k1, k2, l1, l2, hc, hs, Bool.and_self, if_true]
  have htmp : tempStep [("companies", some dfC), ("stock_prices", some dfS)] =
      Except.ok [] := by
    simp only [tempStep, k3, Bool.false_eq_true, if_false]
  have hbody : crossBody [("companies", some dfC), ("stock_prices", some dfS)] =
      Except.ok (if (pySetDiff sIds cIds).isEmpty then []
                 else [VError.refIntegrity (pySetDiff sIds cIds)]) := by
    simp only [crossBody, href, htmp, List.append_nil]
  have hres : validate_cross_table_constraints
      [("companies", some dfC), ("stock_prices", some dfS)] =
      ((if (pySetDiff sIds cIds).isEmpty then []
        else [VError.refIntegrity (pySetDiff sIds cIds)]).isEmpty,
        if (pySetDiff sIds cIds).isEmpty then []
        else [VError.refIntegrity (pySetDiff sIds cIds)]) := by
    simp only [validate_cross_table_constraints, hbody]
  rw [hres]
  refine ⟨?_, ?_, mem_pySetDiff sIds cIds⟩
  · by_cases hnil : pySetDiff sIds cIds = []
    · simp only [hnil, List.isEmpty_nil, if_true, List.isEmpty_nil]
      rw [pySetDiff_eq_nil] at hnil
      simp only [hnil, iff_false]
      decide
    · rw [← List.isEmpty_iff, Bool.not_eq_true] at hnil
      simp only [hnil, Bool.false_eq_true, if_false, List.isEmpty_cons]
      rw [Bool.eq_false_iff] at hnil
      have : ¬(pySetDiff sIds cIds = []) := fun he => hnil (by rw [he]; rfl)
      rw [pySetDiff_eq_nil] at this
      simp only [not_not] at this
      simp only [this, iff_true]
  · by_cases hnil : pySetDiff sIds cIds = []
    · simp [hnil]
    · rw [← List.isEmpty_iff, Bool.not_eq_true] at hnil
      simp only [hnil, Bool.false_eq_true, if_false]
      rw [Bool.eq_false_iff] at hnil
      have : ¬(pySetDiff sIds cIds = []) := fun he => hnil (by rw [he]; rfl)
      rw [if_neg this]

/-- Witness for C3: stock id 2 has no companies row, so the cross-table
check fails. -/
theorem c3_referential_integrity_witness :
    (validate_cross_table_constraints
        [("companies", some dfRefCompanies), ("stock_prices", some dfRefStock)]).1 = false :=
  ((c3_referential_integrity dfRefCompanies dfRefStock
      [Value.vInt 1] [Value.vInt 1, Value.vInt 2] rfl rfl).1).mpr
    ⟨Value.vInt 2, by decide, by decide⟩

theorem vlt_irrefl (v : Value) : vlt v v = false := by
  cases v <;> simp [vlt]

/-- C4: a cybersecurity_incidents row is a temporal-ordering violation
exactly when its disclosure_date is non-null and strictly earlier than its
breach_date; the cross-table check reports the count of such rows as one
single error, and rows with disclosure equal to breach or null are not
violations. -/
theorem c4_temporal_ordering (dfI : DataFrame) (disc breach : List Value)
    (hd : subscriptCol (some dfI) "disclosure_date" = Except.ok disc)
    (hb : subscriptCol (some dfI) "breach_date" = Except.ok breach) :
    ((validate_cross_table_constraints [("cybersecurity_incidents", some dfI)]).1 = false ↔
      0 < violationCount disc breach) ∧
    ((validate_cross_table_constraints [("cybersecurity_incidents", some dfI)]).2 =
      if 0 < violationCount disc breach
      then [VError.temporal (violationCount disc breach)] else []) ∧
    (∀ d b : Value, (d = Value.vNull ∨ d = b) → (!d.isNull && vlt d b) = false) ∧
    (∀ d b : Value, (!d.isNull && vlt d b) = true ↔
      d.isNull = false ∧ vlt d b = true) := by
  have k1 : containsKey [("cybersecurity_incidents", some dfI)] "companies" = false := rfl
  have k2 : containsKey [("cybersecurity_incidents", some dfI)] "stock_prices" = false := rfl
  have k3 : containsKey [("cybersecurity_incidents", some dfI)]
      "cybersecurity_incidents" = true := rfl
  have l1 : (List.lookup "cybersecurity_incidents"
      [("cybersecurity_incidents", some dfI)]).getD none = some dfI := rfl
  have href : refStep [("cybersecurity_incidents", some dfI)] = Except.ok [] := by
    simp only [refStep, k1, k2, Bool.false_and, Bool.false_eq_true, if_false]
  have htmp : tempStep [("cybersecurity_incidents", some dfI)] =
      Except.ok (if 0 < violationCount disc breach
                 then [VError.temporal (violationCount disc breach)] else []) := by
    simp only [tempStep, k3, l1, hd, hb, if_true]
  have hres : validate_cross_table_constraints [("cybersecurity_incidents", some dfI)] =
      ((if 0 < violationCount disc breach
        then [VError.temporal (violationCount disc breach)] else []).isEmpty,
        if 0 < violationCount disc breach
        then [VError.temporal (violationCount disc breach)] else []) := by
    simp only [validate_cross_table_constraints, crossBody, href, htmp, List.nil_append]
  rw [hres]
  refine ⟨?_, rfl, ?_, ?_⟩
  · by_cases hn : 0 < violationCount disc breach
    · simp [hn]
    · simp [hn]
  · rintro d b (rfl | rfl)
    · rfl
    · rw [vlt_irrefl]
      simp
  · intro d b
    rw [Bool.and_eq_true, Bool.not_eq_true']

/-- Witness for C4: one incident disclosed five days before its breach
makes the cross-table check fail. -/
theorem c4_temporal_ordering_witness :
    (validate_cross_table_constraints
        [("cybersecurity_incidents", some dfIncidentsLate)]).1 = false :=
  ((c4_temporal_ordering dfIncidentsLate [Value.vTs 5] [Value.vTs 10]
      rfl rfl).1).mpr (by decide)

/-- C9: a merged row carrying both a breach date and a filing date is
labeled Immediate exactly when the number of calendar days from breach to
filing is at most 4, and Delayed otherwise (the dates are calendar-day
numbers, so their difference is calendar days, not business days). -/
theorem c9_calendar_days (incidents : List IncidentRow) (filings : List FilingRow)
    (r : MergedRow) (hr : r ∈ classify_disclosure_speed incidents filings)
    (b f : Int) (hb : r.breach_date = some b) (hf : r.filing_date = some f) :
    (r.disclosure_speed = "Immediate" ↔ f - b ≤ 4) ∧
    (r.disclosure_speed = "Delayed" ↔ ¬(f - b ≤ 4)) := by
  unfold classify_disclosure_speed at hr
  rw [List.mem_map] at hr
  obtain ⟨p, hp, rfl⟩ := hr
  simp only at hb hf
  rw [hb, hf]
  simp only [optSub]
  by_cases h4 : f - b ≤ 4
  · rw [if_pos (by simpa [optLe4] using h4)]
    constructor
    · exact ⟨fun _ => h4, fun _ => rfl⟩
    · constructor
      · intro hs; exact absurd hs (by decide)
      · intro hn; exact absurd h4 hn
  · rw [if_neg (by simpa [optLe4] using h4)]
    constructor
    · constructor
      · intro hs; exact absurd hs (by decide)
      · intro hle; exact absurd hle h4
    · exact ⟨fun _ => h4, fun _ => rfl⟩

/-- Witness for C9: company 1 breached on day 0 and filed on day 3 is
classified Immediate, since 3 - 0 ≤ 4. -/
theorem c9_calendar_days_witness :
    mrowDemo ∈ classify_disclosure_speed incDemo filDemo ∧
    mrowDemo.disclosure_speed = "Immediate" :=
  ⟨by decide,
   ((c9_calendar_days incDemo filDemo mrowDemo (by decide) 0 3 rfl rfl).1).mpr (by decide)⟩

/-- C10: `classify_disclosure_speed` never labels a merged row Unknown:
every row is labeled Immediate or Delayed; an incident whose left join
finds no matching filing yields a row with a null filing date labeled
Delayed; yet the `disclosure_speed` check of `sec_filings_schema` admits
the value Unknown. -/
theorem c10_no_unknown_label (incidents : List IncidentRow) (filings : List FilingRow) :
    (∀ r ∈ classify_disclosure_speed incidents filings,
        r.disclosure_speed ≠ "Unknown" ∧
        (r.disclosure_speed = "Immediate" ∨ r.disclosure_speed = "Delayed")) ∧
    (∀ i ∈ incidents, (∀ fl ∈ filings, fl.company_id ≠ i.company_id) →
        ∃ r ∈ classify_disclosure_speed incidents filings,
          r.company_id = i.company_id ∧ r.filing_date = none ∧
          r.disclosure_speed = "Delayed") ∧
    (∃ spec ∈ sec_filings_schema, spec.name = "disclosure_speed" ∧
        ∃ chk ∈ spec.checks, chk.2 (Value.vStr "Unknown") = true) := by
  refine ⟨?_, ?_, ?_⟩
  · intro r hr
    unfold classify_disclosure_speed at hr
    rw [List.mem_map] at hr
    obtain ⟨p, hp, rfl⟩ := hr
    simp only
    by_cases hle : optLe4 (optSub (match p.2 with
        | some fl => fl.filing_date
        | none => none) p.1.breach_date) = true
    · rw [if_pos hle]
      exact ⟨by decide, Or.inl rfl⟩
    · rw [if_neg hle]
      exact ⟨by decide, Or.inr rfl⟩
  · intro i hi hnone
    have hfilter : filings.filter (fun fl => fl.company_id == i.company_id) = [] := by
      rw [List.filter_eq_nil_iff]
      intro fl hfl
      simpa using hnone fl hfl
    refine ⟨{ company_id := i.company_id, breach_date := i.breach_date,
              filing_date := none, days_to_disclosure := none,
              disclosure_speed := "Delayed" }, ?_, rfl, rfl, rfl⟩
    unfold classify_disclosure_speed
    have hmem : (i, (none : Option FilingRow)) ∈ leftMergeRows incidents filings := by
      unfold leftMergeRows
      rw [List.mem_flatMap]
      refine ⟨i, hi, ?_⟩
      rw [hfilter]
      exact List.mem_singleton.mpr rfl
    rw [List.mem_map]
    exact ⟨(i, none), hmem, rfl⟩
  · unfold sec_filings_schema
    refine ⟨_, List.mem_cons_of_mem _ (List.mem_cons_of_mem _ (List.mem_cons_of_mem _
      (List.mem_cons_of_mem _ (List.mem_cons_self _ _)))), rfl, ?_⟩
    exact ⟨_, List.mem_cons_self _ _, rfl⟩

/-- Witness for C10: company 7 has no filing at all, and its single merged
row is labeled Delayed with a null filing date. -/
theorem c10_no_unknown_label_witness :
    ∃ r ∈ classify_disclosure_speed incNoMatch [], r.company_id = 7 ∧
      r.filing_date = none ∧ r.disclosure_speed = "Delayed" :=
  (c10_no_unknown_label incNoMatch []).2.1 ⟨7, some 0⟩ (by decide)
    (fun fl hfl => absurd hfl (List.not_mem_nil fl))

theorem vGtQ_none (v : Value) : vGtQ v none = false := by
  cases v <;> rfl

theorem filter_vGtQ_length (q : ℚ) (cells : List Value) :
    (cells.filter (fun v => vGtQ v (some q))).length =
      ((nonNullRats cells).filter (fun x => decide (q < x))).length := by
  induction cells with
  | nil => rfl
  | cons v rest ih =>
      rw [List.filter_cons]
      cases v with
      | vInt n =>
          have hnn : nonNullRats (Value.vInt n :: rest) = (n : ℚ) :: nonNullRats rest := by
            simp [nonNullRats, List.filterMap_cons, toRat?]
          rw [hnn, List.filter_cons]
          by_cases hg : q < (n : ℚ)
          · rw [if_pos (by simpa [vGtQ, toRat?] using hg), if_pos (by simpa using hg)]
            simp [ih]
          · rw [if_neg (by simpa [vGtQ, toRat?] using hg), if_neg (by simpa using hg)]
            exact ih
      | vFloat x =>
          have hnn : nonNullRats (Value.vFloat x :: rest) = x :: nonNullRats rest := by
            simp [nonNullRats, List.filterMap_cons, toRat?]
          rw [hnn, List.filter_cons]
          by_cases hg : q < x
          · rw [if_pos (by simpa [vGtQ, toRat?] using hg), if_pos (by simpa using hg)]
            simp [ih]
          · rw [if_neg (by simpa [vGtQ, toRat?] using hg), if_neg (by simpa using hg)]
            exact ih
      | vStr s =>
          have hnn : nonNullRats (Value.vStr s :: rest) = nonNullRats rest := by
            simp [nonNullRats, List.filterMap_cons, toRat?]
          rw [hnn, if_neg (by simp [vGtQ, toRat?])]
          exact ih
      | vBool b =>
          have hnn : nonNullRats (Value.vBool b :: rest) = nonNullRats rest := by
            simp [nonNullRats, List.filterMap_cons, toRat?]
          rw [hnn, if_neg (by simp [vGtQ, toRat?])]
          exact ih
      | vTs t =>
          have hnn : nonNullRats (Value.vTs t :: rest) = nonNullRats rest := by
            simp [nonNullRats, List.filterMap_cons, toRat?]
          rw [hnn, if_neg (by simp [vGtQ, toRat?])]
          exact ih
      | vNull =>
          have hnn : nonNullRats (Value.vNull :: rest) = nonNullRats rest := by
            simp [nonNullRats, List.filterMap_cons, toRat?]
          rw [hnn, if_neg (by simp [vGtQ, toRat?])]
          exact ih

theorem colStats_outliers (cells : List Value) :
    (colStats cells).outliers = countAbove95 cells := by
  unfold colStats countAbove95
  cases hq : quantile95 cells with
  | none =>
      simp only
      have hnil : cells.filter (fun v => vGtQ v none) = [] := by
        rw [List.filter_eq_nil_iff]
        intro v _
        simp [vGtQ_none v]
      rw [hnil]
      rfl
  | some q =>
      simp only
      exact filter_vGtQ_length q cells

/-- C8: for every dataset and every numeric column, the profile's
`outliers` entry equals the number of values of that column strictly
greater than the column's 95th percentile. -/
theorem c8_outlier_count (df : DataFrame) (dsname : String) (c : Col)
    (hc : c ∈ df.cols) (hnum : isNumericD c.dtype = true) :
    ∃ s, (c.name ++ "_stats", s) ∈ (generate_data_profile df dsname).stats ∧
      s.outliers = countAbove95 c.cells := by
  refine ⟨colStats c.cells, ?_, colStats_outliers c.cells⟩
  unfold generate_data_profile
  simp only
  exact List.mem_map_of_mem _ (List.mem_filter.mpr ⟨hc, hnum⟩)

/-- Witness for C8: the singleton numeric column of `dfPrices` gets a
stats entry whose outlier count is the count of values above the 95th
percentile. -/
theorem c8_outlier_count_witness :
    ∃ s, ("price" ++ "_stats", s) ∈ (generate_data_profile dfPrices "stock_prices").stats ∧
      s.outliers = countAbove95 [Value.vInt 1, Value.vInt 2, Value.vInt 100] :=
  c8_outlier_count dfPrices "stock_prices"
    ⟨"price", .dInt, [Value.vInt 1, Value.vInt 2, Value.vInt 100]⟩
    (by decide) (by decide)

theorem foldl_valStep (l : Datasets) : ∀ rs ps st,
    l.foldl valStep (rs, ps, st) =
      (rs ++ dsEntries l, ps ++ profEntries l,
        if anyFailedB l then "FAILED" else st) := by
  induction l with
  | nil =>
      intro rs ps st
      simp [dsEntries, profEntries, anyFailedB]
  | cons p l ih =>
      intro rs ps st
      rw [List.foldl_cons]
      rcases p with ⟨name, odf⟩
      cases odf with
      | none =>
          have hstep : valStep (rs, ps, st) (name, none) = (rs, ps, st) := rfl
          rw [hstep, ih]
          simp [dsEntries, profEntries, anyFailedB]
      | some df =>
          by_cases he : df.isEmpty = true
          · have hstep : valStep (rs, ps, st) (name, some df) = (rs, ps, st) := by
              simp [valStep, he]
            rw [hstep, ih]
            simp [dsEntries, profEntries, anyFailedB, he]
          · rw [Bool.not_eq_true] at he
            have hstep : valStep (rs, ps, st) (name, some df) =
                (rs ++ [(name, ⟨(validate_dataset df name).1,
                    (validate_dataset df name).2, nRows df⟩)],
                 ps ++ [(name, generate_data_profile df name)],
                 if (validate_dataset df name).1 then st else "FAILED") := by
              simp [valStep, he]
            rw [hstep, ih]
            by_cases hv : (validate_dataset df name).1 = true
            · simp [dsEntries, profEntries, anyFailedB, he, hv]
            · rw [Bool.not_eq_true] at hv
              simp [dsEntries, profEntries, anyFailedB, he, hv]

theorem anyFailedB_eq (l : Datasets) :
    anyFailedB l = (dsEntries l).any (fun e => !e.2.passed) := by
  induction l with
  | nil => rfl
  | cons p l ih =>
      rcases p with ⟨name, odf⟩
      cases odf with
      | none => simpa [anyFailedB, dsEntries] using ih
      | some df =>
          by_cases he : df.isEmpty = true
          · simpa [anyFailedB, dsEntries, he] using ih
          · rw [Bool.not_eq_true] at he
            simp [anyFailedB, dsEntries, he, ih, List.any_cons]

/-- C1: the report's overall status is FAILED iff some per-dataset result
or the cross-table result has `passed = false`; otherwise it is PASSED. -/
theorem c1_overall_status_iff (datasets : Datasets) :
    ((run_comprehensive_validation datasets).overall_status = "FAILED" ↔
      ((∃ e ∈ (run_comprehensive_validation datasets).dataset_results,
          e.2.passed = false) ∨
        (run_comprehensive_validation datasets).cross_passed = false)) ∧
    ((run_comprehensive_validation datasets).overall_status = "FAILED" ∨
      (run_comprehensive_validation datasets).overall_status = "PASSED") := by
  have hfold := foldl_valStep datasets [] [] "PASSED"
  have hov : (run_comprehensive_validation datasets).overall_status =
      if (validate_cross_table_constraints datasets).1
      then (if anyFailedB datasets then "FAILED" else "PASSED") else "FAILED" := by
    simp only [run_comprehensive_validation, hfold]
  have hds : (run_comprehensive_validation datasets).dataset_results =
      dsEntries datasets := by
    simp only [run_comprehensive_validation, hfold, List.nil_append]
  have hcp : (run_comprehensive_validation datasets).cross_passed =
      (validate_cross_table_constraints datasets).1 := by
    simp only [run_comprehensive_validation]
  rw [hov, hds, hcp]
  by_cases hc : (validate_cross_table_constraints datasets).1 = true
  · rw [if_pos hc]
    by_cases ha : anyFailedB datasets = true
    · rw [if_pos ha]
      refine ⟨⟨fun _ => ?_, fun _ => rfl⟩, Or.inl rfl⟩
      rw [anyFailedB_eq] at ha
      obtain ⟨e, he, hp⟩ := List.any_eq_true.mp ha
      have hpf : e.2.passed = false := by
        revert hp
        cases e.2.passed <;> simp
      exact Or.inl ⟨e, he, hpf⟩
    · rw [if_neg ha]
      refine ⟨⟨fun hps => absurd hps (by decide), ?_⟩, Or.inr rfl⟩
      rintro (⟨e, he, hp⟩ | hcf)
      · exfalso
        apply ha
        rw [anyFailedB_eq]
        refine List.any_eq_true.mpr ⟨e, he, ?_⟩
        rw [hp]
        rfl
      · rw [hc] at hcf
        cases hcf
  · rw [if_neg hc]
    rw [Bool.not_eq_true] at hc
    exact ⟨⟨fun _ => Or.inr hc, fun _ => rfl⟩, Or.inl rfl⟩

theorem dsEntries_not_mem (l : Datasets) (name : String)
    (h : ∀ odf, (name, odf) ∈ l →
        odf = none ∨ ∃ df, odf = some df ∧ df.isEmpty = true) :
    name ∉ (dsEntries l).map Prod.fst := by
  induction l with
  | nil => simp [dsEntries]
  | cons p l ih =>
      have hrest : ∀ odf, (name, odf) ∈ l →
          odf = none ∨ ∃ df, odf = some df ∧ df.isEmpty = true :=
        fun odf hm => h odf (List.mem_cons_of_mem _ hm)
      rcases p with ⟨pn, podf⟩
      cases podf with
      | none =>
          rw [show dsEntries ((pn, none) :: l) = dsEntries l from rfl]
          exact ih hrest
      | some df =>
          by_cases hemp : df.isEmpty = true
          · simp only [dsEntries, hemp, if_true]
            exact ih hrest
          · rw [Bool.not_eq_true] at hemp
            simp only [dsEntries, hemp, Bool.false_eq_true, if_false, List.map_cons,
              List.mem_cons, not_or]
            refine ⟨?_, ih hrest⟩
            intro h1
            subst h1
            rcases h (some df) (List.mem_cons_self _ _) with hcon | ⟨df', hdf', hie⟩
            · cases hcon
            · injection hdf' with hdd
              subst hdd
              rw [hemp] at hie
              cases hie

theorem profEntries_not_mem (l : Datasets) (name : String)
    (h : ∀ odf, (name, odf) ∈ l →
        odf = none ∨ ∃ df, odf = some df ∧ df.isEmpty = true) :
    name ∉ (profEntries l).map Prod.fst := by
  induction l with
  | nil => simp [profEntries]
  | cons p l ih =>
      have hrest : ∀ odf, (name, odf) ∈ l →
          odf = none ∨ ∃ df, odf = some df ∧ df.isEmpty = true :=
        fun odf hm => h odf (List.mem_cons_of_mem _ hm)
      rcases p with ⟨pn, podf⟩
      cases podf with
      | none =>
          rw [show profEntries ((pn, none) :: l) = profEntries l from rfl]
          exact ih hrest
      | some df =>
          by_cases hemp : df.isEmpty = true
          · simp only [profEntries, hemp, if_true]
            exact ih hrest
          · rw [Bool.not_eq_true] at hemp
            simp only [profEntries, hemp, Bool.false_eq_true, if_false, List.map_cons,
              List.mem_cons, not_or]
            refine ⟨?_, ih hrest⟩
            intro h1
            subst h1
            rcases h (some df) (List.mem_cons_self _ _) with hcon | ⟨df', hdf', hie⟩
            · cases hcon
            · injection hdf' with hdd
              subst hdd
              rw [hemp] at hie
              cases hie

/-- C7: a dataset that is absent (None) or empty is skipped by
`run_comprehensive_validation`: no entry is created for it in
`dataset_results` or `data_profiles`, and no error is raised, so it
cannot affect the per-dataset results. -/
theorem c7_skip_absent_empty (datasets : Datasets) (name : String)
    (h : ∀ odf, (name, odf) ∈ datasets →
        odf = none ∨ ∃ df, odf = some df ∧ df.isEmpty = true) :
    name ∉ (run_comprehensive_validation datasets).dataset_results.map Prod.fst ∧
    name ∉ (run_comprehensive_validation datasets).data_profiles.map Prod.fst := by
  have hfold := foldl_valStep datasets [] [] "PASSED"
  have hds : (run_comprehensive_validation datasets).dataset_results =
      dsEntries datasets := by
    simp only [run_comprehensive_validation, hfold, List.nil_append]
  have hpf : (run_comprehensive_validation datasets).data_profiles =
      profEntries datasets := by
    simp only [run_comprehensive_validation, hfold, List.nil_append]
  rw [hds, hpf]
  exact ⟨dsEntries_not_mem datasets name h, profEntries_not_mem datasets name h⟩

/-- Witness for C7: a collection whose only stock_prices entry is None
yields a report with no stock_prices result and no stock_prices
profile. -/
theorem c7_skip_absent_empty_witness :
    "stock_prices" ∉ (run_comprehensive_validation
        [("stock_prices", (none : Option DataFrame))]).dataset_results.map Prod.fst ∧
    "stock_prices" ∉ (run_comprehensive_validation
        [("stock_prices", (none : Option DataFrame))]).data_profiles.map Prod.fst :=
  c7_skip_absent_empty [("stock_prices", none)] "stock_prices"
    (fun odf hm => Or.inl (by simpa using hm))
